import Mathlib

/-!
# Training-session controller of `src/App.jsx`

A shallow embedding of the React component `App`: the pieces of component state and the
refs that the training session reads and writes, the four session handlers, the frame
callback `onResults`, and the effect keyed on `[isTraining, isPaused]`.

Conventions of the embedding.

* Timestamps (`Date.now()`) are integers in milliseconds; gesture counts are naturals.
* `gesturesProgress` is a JavaScript object; it is an association list from keys to counts.
* `noHandTimerIdRef.current` holds the id of a `setTimeout` call; the embedding stores the
  instant at which that call is due (the scheduling instant plus the 3000 ms delay),
  `none` standing for `null`.
* A handler reads the state of the render in which it was created. Buttons carry the
  handlers of the latest render. The callback registered on a `Hands` object is the
  `onResults` of the render whose effect run created it, so the `handleStopTraining` it
  calls reads `currentCourse` and `correctGestures` of that render: field `detector`.
* `dispatch` gives the state committed after an event when the render returns;
  `renderThrows` tells when `renderView` throws instead, and `tryDispatch` then commits
  nothing.
* Canvas drawing, the `gestureFeedback` banner and the camera-error message are display
  only and are left out. The `<video>` and `<canvas>` elements exist while the
  `'training'` view is rendered.
* A render commits after each event, and the effect runs with it. The set-up started by
  an effect run is asynchronous and nothing cancels it: `loadScripts` waits for the three
  `<script>` tags the first time they are appended, `setupCameraAndHands` then creates the
  `Hands` object and waits for `getUserMedia`, and the `detectHands` loop starts when the
  camera is ready, if the `<video>` element and `handsRef.current` exist at that moment.
  The guards `isTraining && !isPaused` (line 69) and `!isTraining || isPaused` (line 95)
  read the constants of the render that ran the effect, where they are `true` and
  `false`. A failing `getUserMedia` only shows a message and is left out.
-/

namespace SeAs

/-! ## Data model -/

/-- The values of `view` used by `renderView`. -/
inductive View where
  | main
  | course_selection
  | training
  | training_complete
  | training_failed
  deriving DecidableEq, Repr

/-- The state variables of one render that `handleStopTraining` reads. -/
structure Closure where
  currentCourse : Option String
  correctGestures : Nat
  deriving DecidableEq, Repr

/-- Component state (`useState`) and refs (`useRef`) of `App` used by the session logic,
and the progress of the asynchronous set-up: `detector` holds the render values of the
`onResults` registered on the latest `Hands` object, `scriptTags` whether the three
`<script>` tags are in the document, `scriptsLoaded` whether they have loaded
(`window.Hands` is defined), `loadingSetup` the `loadScripts` call waiting for them with
the render it belongs to, `cameraSetups` the number of `setupCameraAndHands` calls waiting
for `getUserMedia`, `handsOpen` whether `handsRef.current` is not null, and `loop` whether
a `detectHands` loop is scheduled. -/
structure State where
  view : View
  isTraining : Bool
  isPaused : Bool
  correctGestures : Nat
  totalGestures : Nat
  currentCourse : Option String
  currentGesture : String
  isHandDetected : Bool
  gesturesProgress : List (String × Nat)
  noHandTimerId : Option Int
  lastDetectionTime : Int
  detector : Closure
  scriptTags : Bool
  scriptsLoaded : Bool
  loadingSetup : Option Closure
  cameraSetups : Nat
  handsOpen : Bool
  loop : Bool
  deriving DecidableEq, Repr

def recognitionCooldown : Int := 2000

def GESTURES_GOAL : Nat := 20

def detectionDelay : Int := 6000

def noHandDelay : Int := 3000

/-- The keys of `gestures`, in insertion order (`Object.keys(gestures)`). -/
def gestureKeys : List String := ["A", "E", "I", "O", "U"]

/-- Property read `obj[key]` on a progress object; `none` is `undefined`. -/
def objGet (obj : List (String × Nat)) (key : String) : Option Nat :=
  match obj with
  | [] => none
  | (k, v) :: rest => if k = key then some v else objGet rest key

/-- Object spread with one computed key: `{...obj, [key]: value}`. -/
def objSet (obj : List (String × Nat)) (key : String) (value : Nat) : List (String × Nat) :=
  match obj with
  | [] => [(key, value)]
  | (k, v) :: rest => if k = key then (k, value) :: rest else (k, v) :: objSet rest key value

/-- The expression `x || 0` on a count that may be `undefined`. -/
def orZero (x : Option Nat) : Nat :=
  match x with
  | some v => if v = 0 then 0 else v
  | none => 0

/-- The count shown for a course, `gesturesProgress[course] || 0`. -/
def progressOf (s : State) (course : String) : Nat :=
  orZero (objGet s.gesturesProgress course)

/-- Truthiness of a course argument: `null` and the empty string are falsy. -/
def truthy (course : Option String) : Bool :=
  match course with
  | some c => c != ""
  | none => false

/-- The render values captured by handlers created in state `s`. -/
def State.closure (s : State) : Closure :=
  { currentCourse := s.currentCourse, correctGestures := s.correctGestures }

/-- State at mount; `lastDetectionTimeRef` starts at `Date.now()`. -/
def init (mountTime : Int) : State :=
  { view := .main
    isTraining := false
    isPaused := false
    correctGestures := 0
    totalGestures := 0
    currentCourse := none
    currentGesture := "Simulado..."
    isHandDetected := false
    gesturesProgress := [("A", 0), ("E", 0), ("I", 0), ("O", 0), ("U", 0)]
    noHandTimerId := none
    lastDetectionTime := mountTime
    detector := { currentCourse := none, correctGestures := 0 }
    scriptTags := false
    scriptsLoaded := false
    loadingSetup := none
    cameraSetups := 0
    handsOpen := false
    loop := false }

/-! ## Handlers -/

/-- The handler `handleStartTraining(course = null)`. -/
def handleStartTraining (course : Option String) (s : State) : State :=
  match course with
  | some c =>
    if truthy (some c) then
      { s with
        currentCourse := some c
        correctGestures := orZero (objGet s.gesturesProgress c)
        totalGestures := 0
        view := .training
        isTraining := true
        isPaused := false }
    else
      { s with view := .course_selection }
  | none => { s with view := .course_selection }

/-- The handler `handleStopTraining(isSuccess)` of the render whose values are `cl`. -/
def handleStopTraining (cl : Closure) (isSuccess : Bool) (s : State) : State :=
  let s1 := { s with isTraining := false, isPaused := false }
  if isSuccess then
    let s2 :=
      match cl.currentCourse with
      | some c =>
        if truthy (some c) then
          { s1 with gesturesProgress := objSet s1.gesturesProgress c cl.correctGestures }
        else s1
      | none => s1
    { s2 with view := .training_complete }
  else
    { s1 with view := .training_failed }

/-- The handler `handleGoBack()`. -/
def handleGoBack (s : State) : State :=
  { s with
    view := .main
    isTraining := false
    isPaused := false
    correctGestures := 0
    totalGestures := 0
    currentCourse := none }

/-- The handler `handleRetry()`. -/
def handleRetry (s : State) : State :=
  { s with
    correctGestures := 0
    totalGestures := 0
    isTraining := true
    isPaused := false
    view := .training }

/-- The pause button, `setIsPaused(!isPaused)`. -/
def togglePause (s : State) : State :=
  { s with isPaused := !s.isPaused }

/-- The frame callback `onResults(results)` run at instant `now`; `handDetected` is
`results.multiHandLandmarks.length > 0`, and `cl` holds the render values of the
`handleStopTraining` this callback closes over. -/
def onResults (cl : Closure) (now : Int) (handDetected : Bool) (s : State) : State :=
  if s.view ≠ .training then s
  else
    let s1 := { s with isHandDetected := handDetected }
    if now - s1.lastDetectionTime < detectionDelay then s1
    else
      let s2 := { s1 with lastDetectionTime := now }
      if handDetected then
        let s3 := { s2 with noHandTimerId := none }
        if now - s3.lastDetectionTime > recognitionCooldown then
          let newCorrect := s3.correctGestures + 1
          let finalCorrect := min newCorrect GESTURES_GOAL
          let s4 := if finalCorrect ≥ GESTURES_GOAL then handleStopTraining cl true s3 else s3
          { s4 with
            correctGestures := finalCorrect
            totalGestures := s4.totalGestures + 1
            currentGesture := "Gesto en proceso..." }
        else s3
      else
        let s3 :=
          if s2.noHandTimerId.isNone then { s2 with noHandTimerId := some (now + noHandDelay) }
          else s2
        { s3 with currentGesture := "Mano no detectada" }

/-- The function `setupCameraAndHands()` of the effect run whose render values are `cl`, up
to its `await navigator.mediaDevices.getUserMedia`: its guard `isTraining && !isPaused`
is true in that render; if `window.Hands` is defined a `Hands` object is created and that
render's `onResults` registered on it. -/
def setupCameraAndHands (cl : Closure) (s : State) : State :=
  let s1 := if s.scriptsLoaded then { s with handsOpen := true, detector := cl } else s
  { s1 with cameraSetups := s1.cameraSetups + 1 }

/-- The effect with dependencies `[isTraining, isPaused]`, run when a render commits:
if a dependency changed, the cleanup of the previous run cancels the scheduled
`detectHands`, clears the no-hand timer and closes `handsRef.current`; then, when
`isTraining && !isPaused`, `loadScripts()` is called: it appends the script tags and
waits for them if they are not in the document, and calls `setupCameraAndHands()` at
once if they are. -/
def commit (prev next : State) : State :=
  if prev.isTraining ≠ next.isTraining ∨ prev.isPaused ≠ next.isPaused then
    let cleaned := { next with noHandTimerId := none, handsOpen := false, loop := false }
    if next.isTraining && !next.isPaused then
      if cleaned.scriptTags then setupCameraAndHands next.closure cleaned
      else { cleaned with scriptTags := true, loadingSetup := some next.closure }
    else cleaned
  else next

/-- The script tags have loaded: the waiting `loadScripts` goes on to
`setupCameraAndHands()`. -/
def scriptsLoaded (s : State) : State :=
  match s.loadingSetup with
  | some cl => setupCameraAndHands cl { s with scriptsLoaded := true, loadingSetup := none }
  | none => s

/-- One `getUserMedia` call resolves and the video plays: `setupCameraAndHands` goes on
after its `await`, and starts `detectHands()` if `videoRef.current` and
`handsRef.current` are set. -/
def cameraReady (s : State) : State :=
  if s.cameraSetups = 0 then s
  else
    let s1 := { s with cameraSetups := s.cameraSetups - 1 }
    if s1.view = .training ∧ s1.handsOpen = true then { s1 with loop := true } else s1

/-! ## Events -/

/-- What can happen to the component: a button press, a frame from the detector, the
no-hand timer coming due, the scripts having loaded, the camera being ready. -/
inductive Event where
  | startTraining (course : Option String)
  | stopTraining (isSuccess : Bool)
  | togglePause
  | retry
  | goBack
  | frame (now : Int) (handDetected : Bool)
  | noHandTimeout
  | scriptsLoaded
  | cameraReady
  deriving DecidableEq, Repr

/-- Run the handler of an event in state `s` and commit the render. The timer callback
exists only while a timer is scheduled. -/
def dispatch (s : State) (e : Event) : State :=
  match e with
  | .startTraining course => commit s (handleStartTraining course s)
  | .stopTraining isSuccess => commit s (handleStopTraining s.closure isSuccess s)
  | .togglePause => commit s (togglePause s)
  | .retry => commit s (handleRetry s)
  | .goBack => commit s (handleGoBack s)
  | .frame now handDetected => commit s (onResults s.detector now handDetected s)
  | .noHandTimeout =>
    match s.noHandTimerId with
    | some _ => commit s (handleStopTraining s.detector false s)
    | none => s
  | .scriptsLoaded => scriptsLoaded s
  | .cameraReady => cameraReady s

/-- Which events can occur: the buttons of the rendered view, frames while a `detectHands`
loop is scheduled and `handsRef.current` is set, the timer while one is scheduled, the
end of a wait while a set-up is waiting. -/
def enabled (s : State) (e : Event) : Bool :=
  match e with
  | .startTraining none => s.view = .main
  | .startTraining (some key) =>
    (s.view = .main || s.view = .course_selection) && gestureKeys.contains key
  | .stopTraining isSuccess => s.view = .training && !isSuccess
  | .togglePause => s.view = .training
  | .retry => s.view = .training_complete || s.view = .training_failed
  | .goBack =>
    s.view = .course_selection || s.view = .training_complete || s.view = .training_failed
  | .frame _ _ => s.loop && s.handsOpen
  | .noHandTimeout => s.noHandTimerId.isSome
  | .scriptsLoaded => s.loadingSetup.isSome
  | .cameraReady => decide (0 < s.cameraSetups)

/-- One event offered to the component: ignored unless it can occur. -/
def step (s : State) (e : Event) : State :=
  if enabled s e then dispatch s e else s

/-- Any sequence of handler calls, whatever the view. -/
def run (s : State) (events : List Event) : State :=
  events.foldl dispatch s

/-- A sequence of events through the user interface and its environment. -/
def runUI (s : State) (events : List Event) : State :=
  events.foldl step s

/-- The session is detecting. -/
def Detecting (s : State) : Prop :=
  s.isTraining = true ∧ s.isPaused = false ∧ s.view = .training

instance (s : State) : Decidable (Detecting s) :=
  inferInstanceAs (Decidable (_ ∧ _ ∧ _))

/-! ## Timed delivery of frames -/

/-- Let the clock reach `t`: a scheduled no-hand timer that is due runs its callback. -/
def fireDue (t : Int) (s : State) : State :=
  match s.noHandTimerId with
  | some due => if due ≤ t then dispatch s .noHandTimeout else s
  | none => s

/-- The detector delivers one frame `(now, handDetected)` to `onResults`: timers due by
`now` run first. -/
def deliver (s : State) (f : Int × Bool) : State :=
  dispatch (fireDue f.1 s) (.frame f.1 f.2)

/-- Deliver frames in order with no command in between, then let the clock reach `tEnd`. -/
def runFrames (s : State) (frames : List (Int × Bool)) (tEnd : Int) : State :=
  fireDue tEnd (frames.foldl deliver s)

/-! ## Invariants -/

/-- Every count of the component is zero: the two session counters, every entry of the
progress object, and the count captured by the detector callback or by a waiting
set-up. -/
structure Zeroed (s : State) : Prop where
  correct : s.correctGestures = 0
  total : s.totalGestures = 0
  progress : ∀ k, progressOf s k = 0
  captured : s.detector.correctGestures = 0
  loading : ∀ cl, s.loadingSetup = some cl → cl.correctGestures = 0

/-- A scheduled no-hand timer is due at most `noHandDelay` after `lastDetectionTimeRef`. -/
def TimerFresh (s : State) : Prop :=
  ∀ due, s.noHandTimerId = some due → due ≤ s.lastDetectionTime + noHandDelay

/-- The session is detecting with a no-hand timer due at `due`, set by a frame at `t0`. -/
def TimerRunning (t0 due : Int) (s : State) : Prop :=
  Detecting s ∧ s.noHandTimerId = some due ∧ s.lastDetectionTime = t0

/-! ## Concrete sessions -/

/-- Mounted at instant 0, then course A chosen, `handleStartTraining('A')`; the scripts
have loaded and the camera is ready, so the detector delivers frames. -/
def startedA : State :=
  runUI (init 0) [.startTraining (some "A"), .scriptsLoaded, .cameraReady]

/-- Mounted at instant 0, then course A chosen: the session is detecting and the scripts
are loading. -/
def loadingA : State :=
  dispatch (init 0) (.startTraining (some "A"))

/-- Mounted at instant 0, course A chosen, and the pause button pressed while the scripts
are still loading; then the scripts load and the camera becomes ready. -/
def pausedWhileLoading : State :=
  runUI (init 0) [.startTraining (some "A"), .togglePause, .scriptsLoaded, .cameraReady]

/-- A component with 5 gestures recorded for course A, showing the main view. -/
def fiveOnA : State :=
  { init 0 with gesturesProgress := [("A", 5), ("E", 0), ("I", 0), ("O", 0), ("U", 0)] }

/-- A session on course A with 7 correct gestures while 15 are recorded for A. -/
def sevenOnA : State :=
  { startedA with
    correctGestures := 7
    totalGestures := 9
    gesturesProgress := [("A", 15), ("E", 3), ("I", 0), ("O", 0), ("U", 0)] }

/-- The session `startedA` after a frame without a hand at instant 10000. -/
def timerPending : State :=
  deliver startedA (10000, false)

/-- Twenty frames with a hand, 8000 ms apart: at 8000, 16000, ..., 160000. -/
def goalFrames : List (Int × Bool) :=
  (List.range 20).map (fun i => (8000 * ((i : Int) + 1), true))

/-- Four frames without a hand, spanning 3000 ms, starting 1000 ms after mount. -/
def earlyFrames : List (Int × Bool) :=
  [(1000, false), (2000, false), (3000, false), (4000, false)]

/-! ## Frames that pass the suppression check, frames that are counted -/

/-- A frame at `now` gets past the two early returns of `onResults`: the canvas exists and
`now - lastDetectionTimeRef.current < detectionDelay` is false. -/
def passesCheck (s : State) (now : Int) : Bool :=
  decide (s.view = .training) && !decide (now - s.lastDetectionTime < detectionDelay)

/-- The instant of event `e` if it is a frame that passes the suppression check in `s`. -/
def passed (s : State) (e : Event) : List Int :=
  match e with
  | .frame now _ => if passesCheck s now then [now] else []
  | _ => []

/-- The instants, in order, of the frames among `events` that pass the suppression check
when the events are handled one after the other from `s`. -/
def passTimes (s : State) (events : List Event) : List Int :=
  match events with
  | [] => []
  | e :: rest => passed s e ++ passTimes (dispatch s e) rest

/-- The instant of event `e` if it is a frame that raises `totalGestures` by one in `s`. -/
def accepted (s : State) (e : Event) : List Int :=
  match e with
  | .frame now hand =>
    if (dispatch s (.frame now hand)).totalGestures = s.totalGestures + 1 then [now] else []
  | _ => []

/-- The instants, in order, of the frames among `events` that are counted as gestures
when the events are handled one after the other from `s`. -/
def acceptedTimes (s : State) (events : List Event) : List Int :=
  match events with
  | [] => []
  | e :: rest => accepted s e ++ acceptedTimes (dispatch s e) rest

/-- The course ids a session may carry: none, or a key of `gestures`. -/
def KnownCourse (s : State) : Prop :=
  s.currentCourse = none ∨ ∃ k, k ∈ gestureKeys ∧ s.currentCourse = some k

/-- Five frames for `startedA`: no hand at 10000, a hand at 11000 and 16000, no hand at
21000, a hand at 22000. -/
def mixedFrames : List Event :=
  [.frame 10000 false, .frame 11000 true, .frame 16000 true, .frame 21000 false,
    .frame 22000 true]

/-! ## Rendering the course of a session -/

/-- The property names an object literal inherits from `Object.prototype`. -/
def inheritedKeys : List String :=
  ["constructor", "hasOwnProperty", "isPrototypeOf", "propertyIsEnumerable", "toLocaleString",
    "toString", "valueOf", "__proto__", "__defineGetter__", "__defineSetter__",
    "__lookupGetter__", "__lookupSetter__"]

/-- The value `gestures[key]` is not `undefined`: `key` is a key of `gestures` or a name
inherited from `Object.prototype`. -/
def gesturesDefined (key : String) : Bool :=
  gestureKeys.contains key || inheritedKeys.contains key

/-- Rendering state `s` throws a `TypeError`: the `'training'` view evaluates
`currentCourse ? gestures[currentCourse].instruction : ...` (line 538), which reads a
property of `undefined` when `currentCourse` is truthy and `gestures[currentCourse]` is
`undefined`. -/
def renderThrows (s : State) : Bool :=
  match s.currentCourse with
  | some c => decide (s.view = .training) && truthy (some c) && !gesturesDefined c
  | none => false

/-- Run the handler of an event; when the render of the new state throws, nothing is
committed and the component is unmounted: `none`. -/
def tryDispatch (s : State) (e : Event) : Option State :=
  if renderThrows (dispatch s e) then none else some (dispatch s e)

/-- Any sequence of handler calls, stopping with `none` when a render throws. -/
def tryRun (s : State) (events : List Event) : Option State :=
  match events with
  | [] => some s
  | e :: rest =>
    match tryDispatch s e with
    | some s1 => tryRun s1 rest
    | none => none

/-- The course of the session, if any, is a truthy id for which `gestures[id]` is not
`undefined`. -/
def CourseDefined (s : State) : Prop :=
  ∀ c, s.currentCourse = some c → truthy (some c) = true ∧ gesturesDefined c = true

/-! ## Facts about the handlers -/

theorem objGet_objSet (obj : List (String × Nat)) (c k : String) (v : Nat) :
    objGet (objSet obj c v) k = if c = k then some v else objGet obj k := by
  induction obj with
  | nil => simp [objSet, objGet]
  | cons p rest ih =>
    obtain ⟨k0, v0⟩ := p
    by_cases h : k0 = c
    · subst h
      by_cases hk : k0 = k <;> simp [objSet, objGet, hk]
    · by_cases hk : k0 = k
      · subst hk
        have hne : ¬ c = k0 := fun hc => h hc.symm
        simp [objSet, objGet, h, hne]
      · simp [objSet, objGet, h, hk, ih]

/-- The comparison against `recognitionCooldown` is made after `lastDetectionTimeRef` was
overwritten with `now`: a frame never changes a count, the progress object, the view,
the flags or the course. -/
theorem onResults_frame (cl : Closure) (now : Int) (hand : Bool) (s : State) :
    (onResults cl now hand s).correctGestures = s.correctGestures ∧
    (onResults cl now hand s).totalGestures = s.totalGestures ∧
    (onResults cl now hand s).gesturesProgress = s.gesturesProgress ∧
    (onResults cl now hand s).view = s.view ∧
    (onResults cl now hand s).isTraining = s.isTraining ∧
    (onResults cl now hand s).isPaused = s.isPaused ∧
    (onResults cl now hand s).currentCourse = s.currentCourse ∧
    (onResults cl now hand s).detector = s.detector ∧
    (onResults cl now hand s).loadingSetup = s.loadingSetup := by
  unfold onResults
  by_cases hv : s.view = .training
  · by_cases hw : now - s.lastDetectionTime < detectionDelay
    · simp [hv, hw]
    · cases hand
      · by_cases ht : s.noHandTimerId.isNone = true <;> simp [hv, hw, ht]
      · simp [hv, hw, recognitionCooldown]
  · simp [hv]

theorem handleStopTraining_fields (cl : Closure) (b : Bool) (s : State) :
    (handleStopTraining cl b s).isTraining = false ∧
    (handleStopTraining cl b s).isPaused = false ∧
    (handleStopTraining cl b s).view = (if b then .training_complete else .training_failed) ∧
    (handleStopTraining cl b s).noHandTimerId = s.noHandTimerId ∧
    (handleStopTraining cl b s).correctGestures = s.correctGestures ∧
    (handleStopTraining cl b s).totalGestures = s.totalGestures ∧
    (handleStopTraining cl b s).currentCourse = s.currentCourse ∧
    (handleStopTraining cl b s).lastDetectionTime = s.lastDetectionTime ∧
    (handleStopTraining cl b s).detector = s.detector := by
  obtain ⟨course, n⟩ := cl
  cases b
  · simp [handleStopTraining]
  · cases course with
    | none => simp [handleStopTraining]
    | some c => by_cases htr : truthy (some c) = true <;> simp [handleStopTraining, htr]

theorem commit_fields (prev next : State) :
    (commit prev next).correctGestures = next.correctGestures ∧
    (commit prev next).totalGestures = next.totalGestures ∧
    (commit prev next).gesturesProgress = next.gesturesProgress ∧
    (commit prev next).view = next.view ∧
    (commit prev next).isTraining = next.isTraining ∧
    (commit prev next).isPaused = next.isPaused ∧
    (commit prev next).currentCourse = next.currentCourse ∧
    (commit prev next).lastDetectionTime = next.lastDetectionTime := by
  unfold commit setupCameraAndHands
  by_cases hd : prev.isTraining ≠ next.isTraining ∨ prev.isPaused ≠ next.isPaused
  · rw [if_pos hd]
    cases hT : next.isTraining <;> cases hP : next.isPaused <;>
      cases h1 : next.scriptTags <;> cases h2 : next.scriptsLoaded <;> simp [h1, h2]
  · rw [if_neg hd]
    simp

theorem scriptsLoaded_fields (s : State) :
    (scriptsLoaded s).correctGestures = s.correctGestures ∧
    (scriptsLoaded s).totalGestures = s.totalGestures ∧
    (scriptsLoaded s).gesturesProgress = s.gesturesProgress ∧
    (scriptsLoaded s).view = s.view ∧
    (scriptsLoaded s).isTraining = s.isTraining ∧
    (scriptsLoaded s).isPaused = s.isPaused ∧
    (scriptsLoaded s).currentCourse = s.currentCourse ∧
    (scriptsLoaded s).lastDetectionTime = s.lastDetectionTime ∧
    (scriptsLoaded s).noHandTimerId = s.noHandTimerId := by
  unfold scriptsLoaded setupCameraAndHands
  cases s.loadingSetup <;> simp

theorem cameraReady_fields (s : State) :
    (cameraReady s).correctGestures = s.correctGestures ∧
    (cameraReady s).totalGestures = s.totalGestures ∧
    (cameraReady s).gesturesProgress = s.gesturesProgress ∧
    (cameraReady s).view = s.view ∧
    (cameraReady s).isTraining = s.isTraining ∧
    (cameraReady s).isPaused = s.isPaused ∧
    (cameraReady s).currentCourse = s.currentCourse ∧
    (cameraReady s).lastDetectionTime = s.lastDetectionTime ∧
    (cameraReady s).noHandTimerId = s.noHandTimerId ∧
    (cameraReady s).detector = s.detector ∧
    (cameraReady s).loadingSetup = s.loadingSetup := by
  unfold cameraReady
  by_cases h0 : s.cameraSetups = 0
  · simp [h0]
  · by_cases hv : s.view = .training ∧ s.handsOpen = true
    · simp [h0, hv.1, hv.2]
    · rw [if_neg h0]
      simp only []
      rw [if_neg hv]
      simp

theorem init_zeroed (mountTime : Int) : Zeroed (init mountTime) := by
  refine ⟨rfl, rfl, ?_, rfl, ?_⟩
  · intro k
    simp only [progressOf, init, objGet]
    split_ifs <;> simp [orZero]
  · intro cl h
    simp [init] at h

theorem commit_zeroed (prev next : State) (h : Zeroed next) : Zeroed (commit prev next) := by
  obtain ⟨hc, ht, hp, hd, hl⟩ := h
  obtain ⟨c1, c2, c3, _⟩ := commit_fields prev next
  refine ⟨c1.trans hc, c2.trans ht, ?_, ?_, ?_⟩
  · intro k
    have := hp k
    simp only [progressOf] at this ⊢
    rw [c3]; exact this
  · unfold commit setupCameraAndHands
    by_cases hdep : prev.isTraining ≠ next.isTraining ∨ prev.isPaused ≠ next.isPaused
    · rw [if_pos hdep]
      cases hT : next.isTraining <;> cases hP : next.isPaused <;>
        cases h1 : next.scriptTags <;> cases h2 : next.scriptsLoaded <;>
        simp [h1, h2, State.closure, hc, hd]
    · rw [if_neg hdep]
      exact hd
  · intro cl
    unfold commit setupCameraAndHands
    by_cases hdep : prev.isTraining ≠ next.isTraining ∨ prev.isPaused ≠ next.isPaused
    · rw [if_pos hdep]
      cases hT : next.isTraining <;> cases hP : next.isPaused <;>
        cases h1 : next.scriptTags <;> cases h2 : next.scriptsLoaded <;>
        simp [h1, h2, State.closure]
      all_goals first
        | exact hl cl
        | (intro h3; rw [← h3]; exact hc)
    · rw [if_neg hdep]
      exact hl cl

theorem handleStopTraining_zeroed (cl : Closure) (b : Bool) (s : State)
    (hcl : cl.correctGestures = 0) (h : Zeroed s) : Zeroed (handleStopTraining cl b s) := by
  obtain ⟨hc, ht, hp, hd, hl⟩ := h
  unfold handleStopTraining
  cases b
  · exact ⟨hc, ht, hp, hd, hl⟩
  · cases hcc : cl.currentCourse with
    | none => exact ⟨hc, ht, hp, hd, hl⟩
    | some c =>
      by_cases htr : truthy (some c) = true
      · refine ⟨by simpa [htr] using hc, by simpa [htr] using ht, ?_,
          by simpa [htr] using hd, by simpa [htr] using hl⟩
        intro k
        have hk := hp k
        simp only [progressOf] at hk
        simp only [progressOf, htr, if_true, objGet_objSet, hcl]
        by_cases hck : c = k
        · simp [hck, orZero]
        · simpa [hck] using hk
      · simp only [htr]
        exact ⟨hc, ht, hp, hd, hl⟩

theorem dispatch_zeroed (s : State) (e : Event) (h : Zeroed s) : Zeroed (dispatch s e) := by
  cases e with
  | startTraining course =>
    apply commit_zeroed
    obtain ⟨hc, ht, hp, hd, hl⟩ := h
    unfold handleStartTraining
    cases course with
    | none => exact ⟨hc, ht, hp, hd, hl⟩
    | some c =>
      by_cases htr : truthy (some c) = true
      · simp only [htr, if_true]
        exact ⟨hp c, rfl, hp, hd, hl⟩
      · simp only [htr]
        exact ⟨hc, ht, hp, hd, hl⟩
  | stopTraining b =>
    exact commit_zeroed _ _ (handleStopTraining_zeroed _ _ _ h.correct h)
  | togglePause =>
    exact commit_zeroed _ _ ⟨h.correct, h.total, h.progress, h.captured, h.loading⟩
  | retry =>
    exact commit_zeroed _ _ ⟨rfl, rfl, h.progress, h.captured, h.loading⟩
  | goBack =>
    exact commit_zeroed _ _ ⟨rfl, rfl, h.progress, h.captured, h.loading⟩
  | frame now hand =>
    apply commit_zeroed
    obtain ⟨h1, h2, h3, _, _, _, _, h8, h9⟩ := onResults_frame s.detector now hand s
    refine ⟨h1.trans h.correct, h2.trans h.total, ?_, by rw [h8]; exact h.captured,
      by rw [h9]; exact h.loading⟩
    intro k
    have := h.progress k
    simp only [progressOf] at this ⊢
    rw [h3]; exact this
  | noHandTimeout =>
    simp only [dispatch]
    split
    · exact commit_zeroed _ _ (handleStopTraining_zeroed _ _ _ h.captured h)
    · exact h
  | scriptsLoaded =>
    obtain ⟨hc, ht, hp, hd, hl⟩ := h
    obtain ⟨c1, c2, c3, _⟩ := scriptsLoaded_fields s
    refine ⟨c1.trans hc, c2.trans ht, ?_, ?_, ?_⟩
    · intro k
      have := hp k
      simp only [progressOf] at this ⊢
      simp only [dispatch]
      rw [c3]; exact this
    · simp only [dispatch, scriptsLoaded, setupCameraAndHands]
      cases hls : s.loadingSetup with
      | none => exact hd
      | some cl => simpa using hl cl hls
    · intro cl
      simp only [dispatch, scriptsLoaded, setupCameraAndHands]
      cases hls : s.loadingSetup with
      | none => simp [hls]
      | some cl0 => simp
  | cameraReady =>
    obtain ⟨hc, ht, hp, hd, hl⟩ := h
    obtain ⟨c1, c2, c3, _, _, _, _, _, _, c10, c11⟩ := cameraReady_fields s
    refine ⟨c1.trans hc, c2.trans ht, ?_, ?_, ?_⟩
    · intro k
      have := hp k
      simp only [progressOf] at this ⊢
      simp only [dispatch]
      rw [c3]; exact this
    · simp only [dispatch]
      rw [c10]; exact hd
    · intro cl
      simp only [dispatch]
      rw [c11]; exact hl cl

theorem run_zeroed (events : List Event) (s : State) (h : Zeroed s) : Zeroed (run s events) := by
  induction events generalizing s with
  | nil => exact h
  | cons e rest ih => exact ih _ (dispatch_zeroed s e h)

theorem deliver_first_no_hand (s : State) (t0 : Int) (hdet : Detecting s)
    (htimer : s.noHandTimerId = none) (hwin : detectionDelay ≤ t0 - s.lastDetectionTime) :
    TimerRunning t0 (t0 + noHandDelay) (deliver s (t0, false)) := by
  obtain ⟨h1, h2, h3⟩ := hdet
  have hw : ¬ t0 - s.lastDetectionTime < detectionDelay := not_lt.mpr hwin
  simp [deliver, fireDue, dispatch, onResults, commit, TimerRunning, Detecting,
    htimer, h1, h2, h3, hw]

theorem deliver_suppressed (s : State) (t0 due : Int) (f : Int × Bool)
    (h : TimerRunning t0 due s) (hlate : f.1 < due) (hsup : f.1 - t0 < detectionDelay) :
    TimerRunning t0 due (deliver s f) := by
  obtain ⟨⟨h1, h2, h3⟩, h4, h5⟩ := h
  have hd : ¬ due ≤ f.1 := not_le.mpr hlate
  have hs : f.1 - s.lastDetectionTime < detectionDelay := by rw [h5]; exact hsup
  simp [deliver, fireDue, dispatch, onResults, commit, TimerRunning, Detecting,
    h1, h2, h3, h4, h5, hd, hs, hsup]

theorem foldl_deliver_suppressed (frames : List (Int × Bool)) (s : State) (t0 due : Int)
    (h : TimerRunning t0 due s)
    (hframes : ∀ f ∈ frames, f.1 < due ∧ f.1 - t0 < detectionDelay) :
    TimerRunning t0 due (frames.foldl deliver s) := by
  induction frames generalizing s with
  | nil => exact h
  | cons f rest ih =>
    have hf := hframes f (List.mem_cons_self _ _)
    exact ih _ (deliver_suppressed s t0 due f h hf.1 hf.2)
      (fun g hg => hframes g (List.mem_cons_of_mem _ hg))

theorem fireDue_timer_running (s : State) (t0 due t : Int) (h : TimerRunning t0 due s)
    (ht : due ≤ t) :
    (fireDue t s).view = .training_failed ∧ (fireDue t s).isTraining = false ∧
    (fireDue t s).isPaused = false ∧ (fireDue t s).noHandTimerId = none := by
  obtain ⟨⟨h1, h2, h3⟩, h4, h5⟩ := h
  simp [fireDue, dispatch, handleStopTraining, commit, h1, h2, h3, h4, ht]

theorem step_zeroed (s : State) (e : Event) (h : Zeroed s) : Zeroed (step s e) := by
  unfold step
  split
  · exact dispatch_zeroed s e h
  · exact h

theorem runUI_zeroed (events : List Event) (s : State) (h : Zeroed s) :
    Zeroed (runUI s events) := by
  induction events generalizing s with
  | nil => exact h
  | cons e rest ih => exact ih _ (step_zeroed s e h)

theorem dispatch_progress (s : State) (e : Event) (he : e ≠ .stopTraining true) :
    (dispatch s e).gesturesProgress = s.gesturesProgress := by
  cases e with
  | startTraining course =>
    simp only [dispatch, (commit_fields _ _).2.2.1, handleStartTraining]
    cases course with
    | none => rfl
    | some c => by_cases htr : truthy (some c) = true <;> simp [htr]
  | stopTraining b =>
    cases b
    · simp [dispatch, (commit_fields _ _).2.2.1, handleStopTraining]
    · exact absurd rfl he
  | togglePause => simp [dispatch, (commit_fields _ _).2.2.1, togglePause]
  | retry => simp [dispatch, (commit_fields _ _).2.2.1, handleRetry]
  | goBack => simp [dispatch, (commit_fields _ _).2.2.1, handleGoBack]
  | frame now hand =>
    simp only [dispatch, (commit_fields _ _).2.2.1]
    exact (onResults_frame _ _ _ _).2.2.1
  | noHandTimeout =>
    simp only [dispatch]
    split
    · simp [(commit_fields _ _).2.2.1, handleStopTraining]
    · rfl
  | scriptsLoaded => exact (scriptsLoaded_fields s).2.2.1
  | cameraReady => exact (cameraReady_fields s).2.2.1

theorem dispatch_noHandTimeout_idle (s : State) (h : s.noHandTimerId = none) :
    dispatch s .noHandTimeout = s := by
  simp [dispatch, h]

theorem commit_changed (prev next : State)
    (h : prev.isTraining ≠ next.isTraining ∨ prev.isPaused ≠ next.isPaused) :
    (commit prev next).noHandTimerId = none := by
  unfold commit setupCameraAndHands
  rw [if_pos h]
  cases hT : next.isTraining <;> cases hP : next.isPaused <;>
    cases h1 : next.scriptTags <;> cases h2 : next.scriptsLoaded <;> simp [h1, h2]

theorem commit_same (prev next : State) (h1 : prev.isTraining = next.isTraining)
    (h2 : prev.isPaused = next.isPaused) : commit prev next = next := by
  unfold commit
  rw [if_neg]
  simp [h1, h2]

theorem onResults_suppressed (cl : Closure) (now : Int) (hand : Bool) (s : State)
    (hsup : now - s.lastDetectionTime < detectionDelay) :
    onResults cl now hand s = if s.view ≠ .training then s else { s with isHandDetected := hand } := by
  unfold onResults
  by_cases hv : s.view = .training <;> simp [hv, hsup]

theorem truthy_gestureKeys (c : String) (hc : c ∈ gestureKeys) : truthy (some c) = true := by
  simp only [gestureKeys, List.mem_cons, List.mem_singleton, List.not_mem_nil, or_false] at hc
  rcases hc with h | h | h | h | h <;> subst h <;> decide

theorem step_progress (s : State) (e : Event) (he : e ≠ .stopTraining true) :
    (step s e).gesturesProgress = s.gesturesProgress := by
  unfold step
  split
  · exact dispatch_progress s e he
  · rfl

/-! ## The no-hand timer is never more than 3000 ms ahead of the last processed frame -/

theorem commit_timerFresh (prev next : State) (h : TimerFresh next) :
    TimerFresh (commit prev next) := by
  intro due hdue
  rw [(commit_fields prev next).2.2.2.2.2.2.2]
  by_cases hd : prev.isTraining ≠ next.isTraining ∨ prev.isPaused ≠ next.isPaused
  · rw [commit_changed prev next hd] at hdue
    cases hdue
  · have hs : commit prev next = next := by
      unfold commit
      rw [if_neg hd]
    rw [hs] at hdue
    exact h due hdue

theorem onResults_timerFresh (cl : Closure) (now : Int) (hand : Bool) (s : State)
    (h : TimerFresh s) : TimerFresh (onResults cl now hand s) := by
  intro due hdue
  unfold onResults at hdue ⊢
  by_cases hv : s.view = .training
  · by_cases hw : now - s.lastDetectionTime < detectionDelay
    · simp only [hv, hw, ne_eq, not_true_eq_false, if_false, if_true] at hdue ⊢
      exact h due hdue
    · cases hand
      · cases ht : s.noHandTimerId with
        | none =>
          simp [hv, hw, ht] at hdue ⊢
          omega
        | some d =>
          simp [hv, hw, ht] at hdue ⊢
          have h1 := h d ht
          simp only [detectionDelay, noHandDelay] at hw h1 ⊢
          omega
      · simp [hv, hw, recognitionCooldown] at hdue
  · simp only [hv, ne_eq, not_false_eq_true, if_true] at hdue ⊢
    exact h due hdue

theorem dispatch_timerFresh (s : State) (e : Event) (h : TimerFresh s) :
    TimerFresh (dispatch s e) := by
  cases e with
  | startTraining course =>
    apply commit_timerFresh
    cases course with
    | none => exact h
    | some c =>
      by_cases htr : truthy (some c) = true
      · intro due hdue
        simp only [handleStartTraining, htr, if_true] at hdue ⊢
        exact h due hdue
      · intro due hdue
        simp only [handleStartTraining, htr] at hdue ⊢
        exact h due hdue
  | stopTraining b =>
    apply commit_timerFresh
    intro due hdue
    obtain ⟨_, _, _, g4, _, _, _, g8, _⟩ := handleStopTraining_fields s.closure b s
    rw [g4] at hdue
    rw [g8]
    exact h due hdue
  | togglePause => exact commit_timerFresh _ _ h
  | retry => exact commit_timerFresh _ _ h
  | goBack => exact commit_timerFresh _ _ h
  | frame now hand => exact commit_timerFresh _ _ (onResults_timerFresh _ _ _ _ h)
  | noHandTimeout =>
    simp only [dispatch]
    split
    · apply commit_timerFresh
      intro due hdue
      obtain ⟨_, _, _, g4, _, _, _, g8, _⟩ := handleStopTraining_fields s.detector false s
      rw [g4] at hdue
      rw [g8]
      exact h due hdue
    · exact h
  | scriptsLoaded =>
    intro due hdue
    obtain ⟨_, _, _, _, _, _, _, g8, g9⟩ := scriptsLoaded_fields s
    simp only [dispatch] at hdue ⊢
    rw [g9] at hdue
    rw [g8]
    exact h due hdue
  | cameraReady =>
    intro due hdue
    obtain ⟨_, _, _, _, _, _, _, g8, g9, _⟩ := cameraReady_fields s
    simp only [dispatch] at hdue ⊢
    rw [g9] at hdue
    rw [g8]
    exact h due hdue

theorem run_timerFresh (events : List Event) (s : State) (h : TimerFresh s) :
    TimerFresh (run s events) := by
  induction events generalizing s with
  | nil => exact h
  | cons e rest ih => exact ih _ (dispatch_timerFresh s e h)

/-- In every state reached from the mounted component, a frame with a hand that arrives
before a scheduled no-hand timer is due is inside the suppression window, and leaves the
timer scheduled: the lines of `onResults` that clear the timer never run before it is
due. -/
theorem hand_before_due_timer_kept (mountTime : Int) (events : List Event) (now due : Int)
    (hdue : (run (init mountTime) events).noHandTimerId = some due) (hnow : now < due) :
    now - (run (init mountTime) events).lastDetectionTime < detectionDelay ∧
    (dispatch (run (init mountTime) events) (.frame now true)).noHandTimerId = some due := by
  have hf : TimerFresh (run (init mountTime) events) :=
    run_timerFresh events _ (by intro d hd; simp [init] at hd)
  have h1 := hf due hdue
  have hw : now - (run (init mountTime) events).lastDetectionTime < detectionDelay := by
    simp only [detectionDelay, noHandDelay] at h1 ⊢
    omega
  refine ⟨hw, ?_⟩
  obtain ⟨_, _, _, _, h5, h6, _⟩ :=
    onResults_frame (run (init mountTime) events).detector now true (run (init mountTime) events)
  simp only [dispatch]
  rw [commit_same _ _ h5.symm h6.symm, onResults_suppressed _ _ _ _ hw]
  split <;> simpa using hdue

/-! ## The claims -/

/-- C1 (the code at the failing input): the session `startedA` is detecting with
`lastDetectionTimeRef = 0` and both counters at 0; a frame with a hand at instant 10000
is outside the 6000 ms window and more than 2000 ms after anything before it, yet
`onResults` leaves `totalGestures` and `correctGestures` at 0. -/
theorem C1_frame_outside_window_not_counted :
    Detecting startedA ∧ startedA.lastDetectionTime = 0 ∧
    startedA.totalGestures = 0 ∧ startedA.correctGestures = 0 ∧
    detectionDelay ≤ 10000 - startedA.lastDetectionTime ∧
    recognitionCooldown < 10000 - startedA.lastDetectionTime ∧
    (onResults startedA.detector 10000 true startedA).totalGestures = 0 ∧
    (onResults startedA.detector 10000 true startedA).correctGestures = 0 ∧
    (dispatch startedA (.frame 10000 true)).totalGestures = 0 ∧
    (dispatch startedA (.frame 10000 true)).correctGestures = 0 := by
  decide

set_option maxRecDepth 20000 in
/-- C2 (the code at the failing input): after `handleStartTraining('A')` with no recorded
progress, twenty frames with a hand delivered 8000 ms apart leave both counters at 0, the
session still detecting in view `'training'`, and the progress of A at 0. -/
theorem C2_twenty_frames_goal_not_reached :
    progressOf startedA "A" = 0 ∧ goalFrames.length = 20 ∧
    (runFrames startedA goalFrames 160000).totalGestures = 0 ∧
    (runFrames startedA goalFrames 160000).correctGestures = 0 ∧
    (runFrames startedA goalFrames 160000).view = .training ∧
    (runFrames startedA goalFrames 160000).isTraining = true ∧
    progressOf (runFrames startedA goalFrames 160000) "A" = 0 := by
  decide

/-- C3: in every state reached from the mounted component by any sequence of handler
calls, frames and timer firings (whether or not the view offers them), and in every state
reached through the user interface, `0 ≤ correctGestures ≤ GESTURES_GOAL` and
`correctGestures ≤ totalGestures`. -/
theorem C3_counter_invariant (mountTime : Int) (events : List Event) :
    (0 ≤ (run (init mountTime) events).correctGestures ∧
      (run (init mountTime) events).correctGestures ≤ GESTURES_GOAL ∧
      (run (init mountTime) events).correctGestures ≤ (run (init mountTime) events).totalGestures) ∧
    (0 ≤ (runUI (init mountTime) events).correctGestures ∧
      (runUI (init mountTime) events).correctGestures ≤ GESTURES_GOAL ∧
      (runUI (init mountTime) events).correctGestures ≤
        (runUI (init mountTime) events).totalGestures) := by
  have h1 := run_zeroed events _ (init_zeroed mountTime)
  have h2 := runUI_zeroed events _ (init_zeroed mountTime)
  refine ⟨⟨Nat.zero_le _, ?_, ?_⟩, ⟨Nat.zero_le _, ?_, ?_⟩⟩
  · rw [h1.correct]; exact Nat.zero_le _
  · rw [h1.correct]; exact Nat.zero_le _
  · rw [h2.correct]; exact Nat.zero_le _
  · rw [h2.correct]; exact Nat.zero_le _

/-- C4 (counterexample): the component is mounted at instant 0 and course A is started;
the session is detecting, no timer is scheduled and no frame has been processed. Frames
without a hand arrive at 1000, 2000, 3000 and 4000, a span of 3000 ms, with no command;
all fall inside the 6000 ms window counted from `lastDetectionTimeRef = 0`, no timer is
started, and at instant 4000 the session is still detecting in view `'training'`. -/
theorem C4_counterexample_frames_in_window :
    Detecting startedA ∧ startedA.noHandTimerId = none ∧
    (runFrames startedA earlyFrames 4000).view = .training ∧
    (runFrames startedA earlyFrames 4000).isTraining = true ∧
    (runFrames startedA earlyFrames 4000).noHandTimerId = none := by
  decide

/-- C4 (amended): for a detecting session with no no-hand timer scheduled, if the first
frame arrives at `t0`, at least 6000 ms after `lastDetectionTimeRef`, without a hand, and
every further frame of the following 3000 ms is without a hand, with no command issued,
then at instant `t0 + 3000` the session has failed: view `'training_failed'`,
`isTraining` and `isPaused` false, and no timer left. -/
theorem C4_no_hand_timeout_outside_window (s : State) (t0 : Int) (rest : List (Int × Bool))
    (hdet : Detecting s) (htimer : s.noHandTimerId = none)
    (hwin : detectionDelay ≤ t0 - s.lastDetectionTime)
    (hrest : ∀ f ∈ rest, t0 ≤ f.1 ∧ f.1 < t0 + noHandDelay ∧ f.2 = false) :
    (runFrames s ((t0, false) :: rest) (t0 + noHandDelay)).view = .training_failed ∧
    (runFrames s ((t0, false) :: rest) (t0 + noHandDelay)).isTraining = false ∧
    (runFrames s ((t0, false) :: rest) (t0 + noHandDelay)).isPaused = false ∧
    (runFrames s ((t0, false) :: rest) (t0 + noHandDelay)).noHandTimerId = none := by
  have h1 := deliver_first_no_hand s t0 hdet htimer hwin
  have h2 := foldl_deliver_suppressed rest _ t0 (t0 + noHandDelay) h1 (by
    intro f hf
    obtain ⟨_, hlt, _⟩ := hrest f hf
    refine ⟨hlt, ?_⟩
    simp only [noHandDelay, detectionDelay] at hlt ⊢
    omega)
  exact fireDue_timer_running _ t0 (t0 + noHandDelay) (t0 + noHandDelay) h2 (le_refl _)

/-- C4 (witness): course A started after mounting at 0; frames without a hand at 7000,
8000 and 9500; the session has failed at 10000. -/
theorem C4_no_hand_timeout_witness :
    Detecting startedA ∧ startedA.noHandTimerId = none ∧
    (runFrames startedA [(7000, false), (8000, false), (9500, false)] 10000).view
      = .training_failed ∧
    (runFrames startedA [(7000, false), (8000, false), (9500, false)] 10000).isTraining
      = false :=
  have h := C4_no_hand_timeout_outside_window startedA 7000 [(8000, false), (9500, false)]
    (by decide) (by decide) (by decide) (by decide)
  ⟨by decide, by decide, h.1, h.2.1⟩

/-- C5 (the code at the failing input): in `timerPending` the session is detecting, the
last frame was processed at 10000 and a no-hand timer is due at 13000. A frame with a hand
delivered at 11000, before the timer is due, is inside the 6000 ms window opened at 10000:
`onResults` returns before the lines that clear the timer, the timer stays scheduled, and
when it comes due at 13000 the session fails. -/
theorem C5_hand_before_deadline_timer_kept :
    Detecting timerPending ∧ timerPending.noHandTimerId = some 13000 ∧
    timerPending.lastDetectionTime = 10000 ∧
    (deliver timerPending (11000, true)).noHandTimerId = some 13000 ∧
    (dispatch timerPending (.frame 11000 true)).noHandTimerId = some 13000 ∧
    (runFrames timerPending [(11000, true)] 13000).view = .training_failed ∧
    (runFrames timerPending [(11000, true)] 13000).isTraining = false := by
  decide

/-- C6 (the code at the failing input): course A is started after mounting at 0 and the
pause button is pressed while the scripts are loading; the cleanup finds nothing to close,
the scripts load, the camera becomes ready and the detector delivers frames to the paused
session. A frame without a hand at 20000 schedules the no-hand timer, due at 23000, in a
session that is paused, not detecting; at 23000 the timer fires against the paused session
and it fails. -/
theorem C6_timer_scheduled_in_paused_session :
    pausedWhileLoading =
      run (init 0) [.startTraining (some "A"), .togglePause, .scriptsLoaded, .cameraReady] ∧
    pausedWhileLoading.isTraining = true ∧ pausedWhileLoading.isPaused = true ∧
    pausedWhileLoading.noHandTimerId = none ∧
    enabled pausedWhileLoading (.frame 20000 false) = true ∧
    (step pausedWhileLoading (.frame 20000 false)).noHandTimerId = some 23000 ∧
    (step pausedWhileLoading (.frame 20000 false)).isPaused = true ∧
    ¬ Detecting (step pausedWhileLoading (.frame 20000 false)) ∧
    enabled (step pausedWhileLoading (.frame 20000 false)) .noHandTimeout = true ∧
    (step (step pausedWhileLoading (.frame 20000 false)) .noHandTimeout).view
      = .training_failed := by
  decide

/-- C7: for a course key `c` of `gestures` and any state, `handleStartTraining(c)` sets
`currentCourse` to `c`, `correctGestures` to `gesturesProgress[c] || 0` (the recorded
count, 0 when there is none), `totalGestures` to 0, enters detecting (view `'training'`,
`isTraining` true, `isPaused` false) and leaves `gesturesProgress` as it was. -/
theorem C7_start_with_prior_progress (s : State) (c : String) (hc : c ∈ gestureKeys) :
    (dispatch s (.startTraining (some c))).currentCourse = some c ∧
    (dispatch s (.startTraining (some c))).correctGestures = progressOf s c ∧
    (∀ p, objGet s.gesturesProgress c = some p →
      (dispatch s (.startTraining (some c))).correctGestures = p) ∧
    (objGet s.gesturesProgress c = none →
      (dispatch s (.startTraining (some c))).correctGestures = 0) ∧
    (dispatch s (.startTraining (some c))).totalGestures = 0 ∧
    Detecting (dispatch s (.startTraining (some c))) ∧
    (dispatch s (.startTraining (some c))).gesturesProgress = s.gesturesProgress := by
  have htr := truthy_gestureKeys c hc
  obtain ⟨h1, h2, h3, h4, h5, h6, h7, _⟩ :=
    commit_fields s (handleStartTraining (some c) s)
  simp only [dispatch, Detecting, h1, h2, h3, h4, h5, h6, h7]
  refine ⟨by simp [handleStartTraining, htr], by simp [handleStartTraining, htr, progressOf],
    ?_, ?_, by simp [handleStartTraining, htr], by simp [handleStartTraining, htr],
    by simp [handleStartTraining, htr]⟩
  · intro p hp
    simp only [handleStartTraining, htr, if_true, hp, orZero]
    split <;> simp_all
  · intro hp
    simp [handleStartTraining, htr, hp, orZero]

/-- C7 (witness): with 5 recorded for A, starting A gives `correctGestures = 5`,
`totalGestures = 0` and a detecting session. -/
theorem C7_start_with_prior_progress_witness :
    "A" ∈ gestureKeys ∧ progressOf fiveOnA "A" = 5 ∧
    (dispatch fiveOnA (.startTraining (some "A"))).currentCourse = some "A" ∧
    (dispatch fiveOnA (.startTraining (some "A"))).correctGestures = 5 ∧
    (dispatch fiveOnA (.startTraining (some "A"))).totalGestures = 0 ∧
    Detecting (dispatch fiveOnA (.startTraining (some "A"))) :=
  have h := C7_start_with_prior_progress fiveOnA "A" (by decide)
  ⟨by decide, by decide, h.1, h.2.1.trans (by decide), h.2.2.2.2.1, h.2.2.2.2.2.1⟩

/-- C8: in a state whose `currentCourse` is a course id `c` (a non-empty string) and
whose `correctGestures` is `n`, `handleStopTraining(true)` of that render ends in view
`'training_complete'` with `isTraining` and `isPaused` false, stores `n` under `c` in
`gesturesProgress` whatever was stored there, and leaves every other key as it was. -/
theorem C8_successful_stop_records (s : State) (c : String)
    (hc : s.currentCourse = some c) (hne : c ≠ "") :
    (dispatch s (.stopTraining true)).view = .training_complete ∧
    (dispatch s (.stopTraining true)).isTraining = false ∧
    (dispatch s (.stopTraining true)).isPaused = false ∧
    objGet (dispatch s (.stopTraining true)).gesturesProgress c = some s.correctGestures ∧
    (∀ d, d ≠ c →
      objGet (dispatch s (.stopTraining true)).gesturesProgress d =
        objGet s.gesturesProgress d) := by
  have htr : truthy (some c) = true := by simpa [truthy] using hne
  obtain ⟨_, _, h3, h4, h5, h6, _, _⟩ :=
    commit_fields s (handleStopTraining s.closure true s)
  obtain ⟨g1, g2, g3, _⟩ := handleStopTraining_fields s.closure true s
  have hp : (handleStopTraining s.closure true s).gesturesProgress =
      objSet s.gesturesProgress c s.correctGestures := by
    simp [handleStopTraining, State.closure, hc, htr]
  simp only [dispatch, h3, h4, h5, h6, g1, g2, g3, hp, objGet_objSet]
  refine ⟨by simp, trivial, trivial, by simp, ?_⟩
  intro d hd
  have hcd : ¬ c = d := fun h => hd h.symm
  simp [hcd]

/-- C8 (witness): with 7 correct gestures on course A while 15 are recorded for A and 3
for E, a successful stop records 7 for A and keeps 3 for E. -/
theorem C8_successful_stop_records_witness :
    sevenOnA.currentCourse = some "A" ∧ sevenOnA.correctGestures = 7 ∧
    objGet sevenOnA.gesturesProgress "A" = some 15 ∧
    (dispatch sevenOnA (.stopTraining true)).view = .training_complete ∧
    objGet (dispatch sevenOnA (.stopTraining true)).gesturesProgress "A" = some 7 ∧
    objGet (dispatch sevenOnA (.stopTraining true)).gesturesProgress "E" = some 3 :=
  have h := C8_successful_stop_records sevenOnA "A" (by decide) (by decide)
  ⟨by decide, by decide, by decide, h.1, h.2.2.2.1,
    (h.2.2.2.2 "E" (by decide)).trans (by decide)⟩

/-- C9: along every sequence of handler calls, frames and timer firings from the mounted
component (and along every sequence through the user interface), the recorded progress
of a course never decreases in a step, and a step that is not `handleStopTraining(true)`
leaves `gesturesProgress` unchanged. -/
theorem C9_progress_monotone (mountTime : Int) (events : List Event) (e : Event)
    (c : String) :
    (progressOf (run (init mountTime) events) c ≤
        progressOf (dispatch (run (init mountTime) events) e) c ∧
      (e ≠ .stopTraining true →
        (dispatch (run (init mountTime) events) e).gesturesProgress =
          (run (init mountTime) events).gesturesProgress)) ∧
    (progressOf (runUI (init mountTime) events) c ≤
        progressOf (step (runUI (init mountTime) events) e) c ∧
      (e ≠ .stopTraining true →
        (step (runUI (init mountTime) events) e).gesturesProgress =
          (runUI (init mountTime) events).gesturesProgress)) := by
  have h1 := run_zeroed events _ (init_zeroed mountTime)
  have h2 := runUI_zeroed events _ (init_zeroed mountTime)
  refine ⟨⟨?_, dispatch_progress _ e⟩, ⟨?_, step_progress _ e⟩⟩
  · rw [h1.progress c]; exact Nat.zero_le _
  · rw [h2.progress c]; exact Nat.zero_le _

/-- C10: a frame delivered at `now` with `now - lastDetectionTimeRef < 6000`, with or
without a hand, changes none of `correctGestures`, `totalGestures`,
`lastDetectionTimeRef`, the no-hand timer, the view, `isTraining`, `isPaused`,
`currentCourse` and `gesturesProgress`. -/
theorem C10_suppressed_frame_no_effect (s : State) (now : Int) (hand : Bool)
    (hsup : now - s.lastDetectionTime < detectionDelay) :
    (dispatch s (.frame now hand)).correctGestures = s.correctGestures ∧
    (dispatch s (.frame now hand)).totalGestures = s.totalGestures ∧
    (dispatch s (.frame now hand)).lastDetectionTime = s.lastDetectionTime ∧
    (dispatch s (.frame now hand)).noHandTimerId = s.noHandTimerId ∧
    (dispatch s (.frame now hand)).view = s.view ∧
    (dispatch s (.frame now hand)).isTraining = s.isTraining ∧
    (dispatch s (.frame now hand)).isPaused = s.isPaused ∧
    (dispatch s (.frame now hand)).currentCourse = s.currentCourse ∧
    (dispatch s (.frame now hand)).gesturesProgress = s.gesturesProgress := by
  obtain ⟨_, _, _, _, h5, h6, _, _⟩ := onResults_frame s.detector now hand s
  simp only [dispatch]
  rw [commit_same _ _ h5.symm h6.symm, onResults_suppressed _ _ _ _ hsup]
  split <;> simp

/-- C10 (witness): in `timerPending` (timer due at 13000, last event at 10000) a frame
with a hand at 11000 leaves the timer, the timestamp and the counters as they were. -/
theorem C10_suppressed_frame_witness :
    (11000 : Int) - timerPending.lastDetectionTime < detectionDelay ∧
    timerPending.noHandTimerId = some 13000 ∧
    (dispatch timerPending (.frame 11000 true)).noHandTimerId = timerPending.noHandTimerId ∧
    (dispatch timerPending (.frame 11000 true)).lastDetectionTime = 10000 ∧
    (dispatch timerPending (.frame 11000 true)).totalGestures = timerPending.totalGestures :=
  have h := C10_suppressed_frame_no_effect timerPending 11000 true (by decide)
  ⟨by decide, by decide, h.2.2.2.1, h.2.2.1.trans (by decide), h.2.1⟩

/-! ## Stop, retry, go back, pause -/

/-- C11: from a detecting state, `handleStopTraining(false)` ends in view
`'training_failed'` with `isTraining` and `isPaused` false and no timer scheduled, and
leaves `gesturesProgress`, `currentCourse`, `correctGestures` and `totalGestures` as they
were. -/
theorem C11_unsuccessful_stop (s : State) (hdet : Detecting s) :
    (dispatch s (.stopTraining false)).view = .training_failed ∧
    (dispatch s (.stopTraining false)).isTraining = false ∧
    (dispatch s (.stopTraining false)).isPaused = false ∧
    (dispatch s (.stopTraining false)).noHandTimerId = none ∧
    (dispatch s (.stopTraining false)).gesturesProgress = s.gesturesProgress ∧
    (dispatch s (.stopTraining false)).currentCourse = s.currentCourse ∧
    (dispatch s (.stopTraining false)).correctGestures = s.correctGestures ∧
    (dispatch s (.stopTraining false)).totalGestures = s.totalGestures := by
  obtain ⟨h1, _, _⟩ := hdet
  obtain ⟨c1, c2, _, c4, c5, c6, c7, _⟩ :=
    commit_fields s (handleStopTraining s.closure false s)
  obtain ⟨g1, g2, g3, _, g5, g6, g7, _⟩ := handleStopTraining_fields s.closure false s
  refine ⟨?_, ?_, ?_, ?_, dispatch_progress s _ (by decide), ?_, ?_, ?_⟩
  · simp only [dispatch, c4, g3]; rfl
  · simp only [dispatch, c5, g1]
  · simp only [dispatch, c6, g2]
  · exact commit_changed _ _ (Or.inl (by rw [g1, h1]; decide))
  · simp only [dispatch, c7, g7]
  · simp only [dispatch, c1, g5]
  · simp only [dispatch, c2, g6]

/-- C11 (witness): stopping `timerPending` (detecting, timer due at 13000) without success
gives view `'training_failed'`, no timer, and course A still selected. -/
theorem C11_unsuccessful_stop_witness :
    Detecting timerPending ∧ timerPending.noHandTimerId = some 13000 ∧
    (dispatch timerPending (.stopTraining false)).view = .training_failed ∧
    (dispatch timerPending (.stopTraining false)).noHandTimerId = none ∧
    (dispatch timerPending (.stopTraining false)).currentCourse = some "A" :=
  have h := C11_unsuccessful_stop timerPending (by decide)
  ⟨by decide, by decide, h.1, h.2.2.2.1, h.2.2.2.2.2.1.trans (by decide)⟩

/-- C12: in every state `handleRetry` sets `correctGestures` and `totalGestures` to 0 and
enters detecting (view `'training'`, `isTraining` true, `isPaused` false), leaving
`currentCourse` and `gesturesProgress` as they were. -/
theorem C12_retry_resets (s : State) :
    (dispatch s .retry).correctGestures = 0 ∧
    (dispatch s .retry).totalGestures = 0 ∧
    Detecting (dispatch s .retry) ∧
    (dispatch s .retry).currentCourse = s.currentCourse ∧
    (dispatch s .retry).gesturesProgress = s.gesturesProgress := by
  obtain ⟨c1, c2, c3, c4, c5, c6, c7, _⟩ := commit_fields s (handleRetry s)
  simp only [dispatch, Detecting, c1, c2, c3, c4, c5, c6, c7]
  simp [handleRetry]

/-- C13: in every state `handleGoBack` shows view `'main'` with `isTraining` and
`isPaused` false, `currentCourse` null and both counters 0, and leaves `gesturesProgress`
as it was. -/
theorem C13_go_back (s : State) :
    (dispatch s .goBack).view = .main ∧
    (dispatch s .goBack).isTraining = false ∧
    (dispatch s .goBack).isPaused = false ∧
    (dispatch s .goBack).currentCourse = none ∧
    (dispatch s .goBack).correctGestures = 0 ∧
    (dispatch s .goBack).totalGestures = 0 ∧
    (dispatch s .goBack).gesturesProgress = s.gesturesProgress := by
  obtain ⟨c1, c2, c3, c4, c5, c6, c7, _⟩ := commit_fields s (handleGoBack s)
  simp only [dispatch, c1, c2, c3, c4, c5, c6, c7]
  simp [handleGoBack]

/-- From a detecting state the pause button gives a paused session with no timer scheduled
and the view, course, counters and progress unchanged; no timer comes due in it; pressing
the button again gives a detecting session with the same course and counters and no timer
scheduled. -/
theorem togglePause_twice (s : State) (hdet : Detecting s) :
    ((dispatch s .togglePause).isTraining = true ∧
      (dispatch s .togglePause).isPaused = true ∧
      (dispatch s .togglePause).noHandTimerId = none ∧
      (dispatch s .togglePause).view = s.view ∧
      (dispatch s .togglePause).currentCourse = s.currentCourse ∧
      (dispatch s .togglePause).correctGestures = s.correctGestures ∧
      (dispatch s .togglePause).totalGestures = s.totalGestures ∧
      (dispatch s .togglePause).gesturesProgress = s.gesturesProgress) ∧
    (∀ t, fireDue t (dispatch s .togglePause) = dispatch s .togglePause) ∧
    (Detecting (dispatch (dispatch s .togglePause) .togglePause) ∧
      (dispatch (dispatch s .togglePause) .togglePause).noHandTimerId = none ∧
      (dispatch (dispatch s .togglePause) .togglePause).currentCourse = s.currentCourse ∧
      (dispatch (dispatch s .togglePause) .togglePause).correctGestures = s.correctGestures ∧
      (dispatch (dispatch s .togglePause) .togglePause).totalGestures = s.totalGestures ∧
      (dispatch (dispatch s .togglePause) .togglePause).gesturesProgress =
        s.gesturesProgress) := by
  obtain ⟨h1, h2, h3⟩ := hdet
  obtain ⟨c1, c2, c3, c4, c5, c6, c7, _⟩ := commit_fields s (togglePause s)
  have ht : (dispatch s .togglePause).noHandTimerId = none :=
    commit_changed _ _ (Or.inr (by simp [togglePause, h2]))
  have hp : (dispatch s .togglePause).isPaused = true := by
    simp only [dispatch, c6]; simp [togglePause, h2]
  have hT : (dispatch s .togglePause).isTraining = true := by
    simp only [dispatch, c5]; simpa [togglePause] using h1
  have first : (dispatch s .togglePause).view = s.view ∧
      (dispatch s .togglePause).currentCourse = s.currentCourse ∧
      (dispatch s .togglePause).correctGestures = s.correctGestures ∧
      (dispatch s .togglePause).totalGestures = s.totalGestures ∧
      (dispatch s .togglePause).gesturesProgress = s.gesturesProgress := by
    simp only [dispatch, c1, c2, c3, c4, c7]
    simp [togglePause]
  obtain ⟨d1, d2, d3, d4, d5, d6, d7, _⟩ :=
    commit_fields (dispatch s .togglePause) (togglePause (dispatch s .togglePause))
  have hdd : dispatch (dispatch s .togglePause) .togglePause =
      commit (dispatch s .togglePause) (togglePause (dispatch s .togglePause)) := rfl
  refine ⟨⟨hT, hp, ht, first⟩, ?_, ?_, ?_, ?_, ?_, ?_, ?_⟩
  · intro t
    simp only [fireDue, ht]
  · refine ⟨?_, ?_, ?_⟩
    · rw [hdd, d5]
      simpa [togglePause] using hT
    · rw [hdd, d6]
      simp [togglePause, hp]
    · rw [hdd, d4]
      simpa [togglePause, first.1] using h3
  · exact commit_changed _ _ (Or.inr (by simp [togglePause, hp]))
  · rw [hdd, d7]
    simpa [togglePause] using first.2.1
  · rw [hdd, d1]
    simpa [togglePause] using first.2.2.1
  · rw [hdd, d2]
    simpa [togglePause] using first.2.2.2.1
  · rw [hdd, d3]
    simpa [togglePause] using first.2.2.2.2

/-- C14 (the code at the failing input): `loadingA` is detecting, its scripts still
loading. The pause button gives a paused session with no timer. The scripts then load, the
camera becomes ready and frames reach `onResults` although the session is paused: after a
frame without a hand at 20000 and the 3000 ms of the no-hand timer, all spent paused, the
session has failed; the pause button is no longer shown and the session cannot return to
detecting by it. -/
theorem C14_paused_session_times_out :
    Detecting loadingA ∧
    (dispatch loadingA .togglePause).isPaused = true ∧
    (dispatch loadingA .togglePause).noHandTimerId = none ∧
    (dispatch loadingA .togglePause).view = .training ∧
    pausedWhileLoading = run (dispatch loadingA .togglePause) [.scriptsLoaded, .cameraReady] ∧
    pausedWhileLoading.isPaused = true ∧
    enabled pausedWhileLoading (.frame 20000 false) = true ∧
    (runFrames pausedWhileLoading [(20000, false)] 22999).isPaused = true ∧
    (runFrames pausedWhileLoading [(20000, false)] 23000).view = .training_failed ∧
    (runFrames pausedWhileLoading [(20000, false)] 23000).isTraining = false ∧
    enabled (runFrames pausedWhileLoading [(20000, false)] 23000) .togglePause = false := by
  decide

/-! ## Course ids -/

theorem init_known (mountTime : Int) : KnownCourse (init mountTime) :=
  Or.inl rfl

theorem step_known (s : State) (e : Event) (h : KnownCourse s) : KnownCourse (step s e) := by
  unfold step
  by_cases hen : enabled s e = true
  swap
  · rw [if_neg hen]; exact h
  rw [if_pos hen]
  unfold KnownCourse at h ⊢
  cases e with
  | startTraining course =>
    simp only [dispatch, (commit_fields _ _).2.2.2.2.2.2.1]
    cases course with
    | none => simpa [handleStartTraining] using h
    | some c =>
      have hc : c ∈ gestureKeys := by
        have h1 := hen
        simp [enabled] at h1
        exact h1.2
      right
      exact ⟨c, hc, by simp [handleStartTraining, truthy_gestureKeys c hc]⟩
  | stopTraining b =>
    simp only [dispatch, (commit_fields _ _).2.2.2.2.2.2.1,
      (handleStopTraining_fields _ _ _).2.2.2.2.2.2.1]
    exact h
  | togglePause =>
    simp only [dispatch, (commit_fields _ _).2.2.2.2.2.2.1]
    simpa [togglePause] using h
  | retry =>
    simp only [dispatch, (commit_fields _ _).2.2.2.2.2.2.1]
    simpa [handleRetry] using h
  | goBack =>
    left
    simp only [dispatch, (commit_fields _ _).2.2.2.2.2.2.1]
    simp [handleGoBack]
  | frame now hand =>
    simp only [dispatch, (commit_fields _ _).2.2.2.2.2.2.1,
      (onResults_frame _ _ _ _).2.2.2.2.2.2.1]
    exact h
  | noHandTimeout =>
    simp only [dispatch]
    split
    · simp only [(commit_fields _ _).2.2.2.2.2.2.1,
        (handleStopTraining_fields _ _ _).2.2.2.2.2.2.1]
      exact h
    · exact h
  | scriptsLoaded =>
    simp only [dispatch, (scriptsLoaded_fields s).2.2.2.2.2.2.1]
    exact h
  | cameraReady =>
    simp only [dispatch, (cameraReady_fields s).2.2.2.2.2.2.1]
    exact h

theorem runUI_known (events : List Event) (s : State) (h : KnownCourse s) :
    KnownCourse (runUI s events) := by
  induction events generalizing s with
  | nil => exact h
  | cons e rest ih => exact ih _ (step_known s e h)

theorem dispatch_course (s : State) (e : Event) :
    (dispatch s e).currentCourse =
      match e with
      | .startTraining (some c) => if truthy (some c) then some c else s.currentCourse
      | .goBack => none
      | _ => s.currentCourse := by
  cases e with
  | startTraining course =>
    simp only [dispatch, (commit_fields _ _).2.2.2.2.2.2.1]
    cases course with
    | none => rfl
    | some c => by_cases htr : truthy (some c) = true <;> simp [handleStartTraining, htr]
  | stopTraining b =>
    simp only [dispatch, (commit_fields _ _).2.2.2.2.2.2.1,
      (handleStopTraining_fields _ _ _).2.2.2.2.2.2.1]
  | togglePause => simp only [dispatch, (commit_fields _ _).2.2.2.2.2.2.1, togglePause]
  | retry => simp only [dispatch, (commit_fields _ _).2.2.2.2.2.2.1, handleRetry]
  | goBack => simp only [dispatch, (commit_fields _ _).2.2.2.2.2.2.1, handleGoBack]
  | frame now hand =>
    simp only [dispatch, (commit_fields _ _).2.2.2.2.2.2.1,
      (onResults_frame _ _ _ _).2.2.2.2.2.2.1]
  | noHandTimeout =>
    simp only [dispatch]
    split
    · simp only [(commit_fields _ _).2.2.2.2.2.2.1,
        (handleStopTraining_fields _ _ _).2.2.2.2.2.2.1]
    · rfl
  | scriptsLoaded => simp only [dispatch, (scriptsLoaded_fields s).2.2.2.2.2.2.1]
  | cameraReady => simp only [dispatch, (cameraReady_fields s).2.2.2.2.2.2.1]

theorem start_render_throws (s : State) (c : String) (htr : truthy (some c) = true)
    (hg : gesturesDefined c = false) :
    renderThrows (handleStartTraining (some c) s) = true ∧
    renderThrows (dispatch s (.startTraining (some c))) = true := by
  have h1 : (handleStartTraining (some c) s).currentCourse = some c := by
    simp [handleStartTraining, htr]
  have h2 : (handleStartTraining (some c) s).view = .training := by
    simp [handleStartTraining, htr]
  obtain ⟨_, _, _, c4, _, _, c7, _⟩ := commit_fields s (handleStartTraining (some c) s)
  constructor
  · simp [renderThrows, h1, h2, htr, hg]
  · simp only [dispatch, renderThrows, c4, c7, h1, h2, htr, hg]
    decide

theorem tryDispatch_courseDefined (s s1 : State) (e : Event) (h : CourseDefined s)
    (ht : tryDispatch s e = some s1) : CourseDefined s1 := by
  unfold tryDispatch at ht
  by_cases hr : renderThrows (dispatch s e) = true
  · rw [if_pos hr] at ht; cases ht
  · rw [if_neg hr] at ht
    simp only [Option.some.injEq] at ht
    subst ht
    intro c hc
    rw [dispatch_course] at hc
    cases e with
    | startTraining course =>
      cases course with
      | none => exact h c hc
      | some k =>
        simp only at hc
        by_cases htr : truthy (some k) = true
        · rw [if_pos htr] at hc
          simp only [Option.some.injEq] at hc
          subst hc
          refine ⟨htr, ?_⟩
          cases hg : gesturesDefined k with
          | true => rfl
          | false => exact absurd (start_render_throws s k htr hg).2 hr
        · rw [if_neg htr] at hc
          exact h c hc
    | goBack => simp at hc
    | stopTraining b => exact h c hc
    | togglePause => exact h c hc
    | retry => exact h c hc
    | frame now hand => exact h c hc
    | noHandTimeout => exact h c hc
    | scriptsLoaded => exact h c hc
    | cameraReady => exact h c hc

theorem tryRun_courseDefined (events : List Event) (s s1 : State) (h : CourseDefined s)
    (ht : tryRun s events = some s1) : CourseDefined s1 := by
  induction events generalizing s with
  | nil =>
    simp only [tryRun, Option.some.injEq] at ht
    subst ht
    exact h
  | cons e rest ih =>
    simp only [tryRun] at ht
    cases hd : tryDispatch s e with
    | none => rw [hd] at ht; cases ht
    | some s2 =>
      rw [hd] at ht
      exact ih s2 (tryDispatch_courseDefined s s2 e h hd) ht

theorem known_render (s : State) (h : KnownCourse s) : renderThrows s = false := by
  rcases h with h | ⟨k, hk, h⟩
  · simp [renderThrows, h]
  · have hg : gesturesDefined k = true := by
      simp [gesturesDefined, hk]
    simp [renderThrows, h, hg]

/-- C15 (counterexample): `"toString"` is not a key of `gestures`, but `gestures["toString"]`
is the function inherited from `Object.prototype`, so the render of the `'training'` view
does not throw: `handleStartTraining("toString")` on the mounted component commits a
detecting session with `isTraining` true and `currentCourse` set to `"toString"`, whose
instruction `gestures["toString"].instruction` is `undefined`. The statement leaves
aside `correctGestures`, which that call does not set to a number. -/
theorem C15_counterexample_inherited_key_started :
    "toString" ∉ gestureKeys ∧ (init 0).isTraining = false ∧
    renderThrows (handleStartTraining (some "toString") (init 0)) = false ∧
    tryDispatch (init 0) (.startTraining (some "toString")) =
      some (dispatch (init 0) (.startTraining (some "toString"))) ∧
    (dispatch (init 0) (.startTraining (some "toString"))).isTraining = true ∧
    (dispatch (init 0) (.startTraining (some "toString"))).currentCourse = some "toString" ∧
    Detecting (dispatch (init 0) (.startTraining (some "toString"))) := by
  decide

/-- C15 (amended): `handleStartTraining` looks nothing up in the catalog. Called with null
or the empty string it starts no session: it shows `'course_selection'` and leaves
`isTraining` and `currentCourse` as they were. Called with a non-empty id for which
`gestures[id]` is `undefined`, the render of the new state throws, so nothing is
committed. The views offer it only with the keys of `gestures`, so in every state reached
through the user interface `currentCourse` is null or one of those keys and the render
does not throw; and after any sequence of handler calls, with any ids, a committed state
never carries a course for which `gestures[id]` is `undefined`. -/
theorem C15_unknown_course_not_committed (mountTime : Int) (events : List Event)
    (s : State) (c : String) :
    (∀ k, truthy k = false →
      (handleStartTraining k s).view = .course_selection ∧
      (handleStartTraining k s).isTraining = s.isTraining ∧
      (handleStartTraining k s).currentCourse = s.currentCourse) ∧
    (truthy (some c) = true → gesturesDefined c = false →
      renderThrows (handleStartTraining (some c) s) = true ∧
      tryDispatch s (.startTraining (some c)) = none) ∧
    (KnownCourse (runUI (init mountTime) events) ∧
      renderThrows (runUI (init mountTime) events) = false) ∧
    (∀ s1, tryRun (init mountTime) events = some s1 → CourseDefined s1) := by
  refine ⟨?_, ?_, ?_, ?_⟩
  · intro k hk
    cases k with
    | none => simp [handleStartTraining]
    | some k => simp [handleStartTraining, hk]
  · intro htr hg
    obtain ⟨h1, h2⟩ := start_render_throws s c htr hg
    exact ⟨h1, by simp [tryDispatch, h2]⟩
  · have hk := runUI_known events _ (init_known mountTime)
    exact ⟨hk, known_render _ hk⟩
  · intro s1 h1
    refine tryRun_courseDefined events (init mountTime) s1 ?_ h1
    intro c0 hc0
    simp [init] at hc0

/-- C15 (witness): `"Z"` is non-empty and `gestures["Z"]` is `undefined`; the render after
`handleStartTraining("Z")` on the mounted component throws and nothing is committed,
while `handleStartTraining("")` only shows `'course_selection'`. -/
theorem C15_unknown_course_not_committed_witness :
    truthy (some "Z") = true ∧ gesturesDefined "Z" = false ∧
    renderThrows (handleStartTraining (some "Z") (init 0)) = true ∧
    tryDispatch (init 0) (.startTraining (some "Z")) = none ∧
    (handleStartTraining (some "") (init 0)).isTraining = false :=
  have h := C15_unknown_course_not_committed 0 [] (init 0) "Z"
  ⟨by decide, by decide, (h.2.1 (by decide) (by decide)).1, (h.2.1 (by decide) (by decide)).2,
    (h.1 (some "") (by decide)).2.1.trans (by decide)⟩

/-! ## Frames: counting and spacing -/

theorem dispatch_frame_fields (s : State) (now : Int) (hand : Bool) :
    (dispatch s (.frame now hand)).correctGestures = s.correctGestures ∧
    (dispatch s (.frame now hand)).totalGestures = s.totalGestures ∧
    (dispatch s (.frame now hand)).gesturesProgress = s.gesturesProgress ∧
    (dispatch s (.frame now hand)).view = s.view ∧
    (dispatch s (.frame now hand)).isTraining = s.isTraining ∧
    (dispatch s (.frame now hand)).isPaused = s.isPaused := by
  obtain ⟨h1, h2, h3, h4, h5, h6, _, _⟩ := onResults_frame s.detector now hand s
  obtain ⟨c1, c2, c3, c4, c5, c6, _, _⟩ := commit_fields s (onResults s.detector now hand s)
  simp only [dispatch, c1, c2, c3, c4, c5, c6]
  exact ⟨h1, h2, h3, h4, h5, h6⟩

theorem run_frames_fields (frames : List (Int × Bool)) (s : State) :
    (run s (frames.map (fun f => Event.frame f.1 f.2))).correctGestures = s.correctGestures ∧
    (run s (frames.map (fun f => Event.frame f.1 f.2))).totalGestures = s.totalGestures ∧
    (run s (frames.map (fun f => Event.frame f.1 f.2))).gesturesProgress = s.gesturesProgress ∧
    (run s (frames.map (fun f => Event.frame f.1 f.2))).view = s.view ∧
    (run s (frames.map (fun f => Event.frame f.1 f.2))).isTraining = s.isTraining := by
  induction frames generalizing s with
  | nil => exact ⟨rfl, rfl, rfl, rfl, rfl⟩
  | cons f rest ih =>
    obtain ⟨h1, h2, h3, h4, h5, _⟩ := dispatch_frame_fields s f.1 f.2
    obtain ⟨i1, i2, i3, i4, i5⟩ := ih (dispatch s (.frame f.1 f.2))
    simp only [List.map_cons, run, List.foldl_cons] at i1 i2 i3 i4 i5 ⊢
    exact ⟨i1.trans h1, i2.trans h2, i3.trans h3, i4.trans h4, i5.trans h5⟩

theorem accepted_nil (s : State) (e : Event) : accepted s e = [] := by
  cases e with
  | frame now hand =>
    have h := (dispatch_frame_fields s now hand).2.1
    simp [accepted, h]
  | _ => rfl

theorem acceptedTimes_nil (events : List Event) (s : State) : acceptedTimes s events = [] := by
  induction events generalizing s with
  | nil => rfl
  | cons e rest ih => simp [acceptedTimes, accepted_nil, ih]

theorem onResults_last (cl : Closure) (now : Int) (hand : Bool) (s : State) :
    (onResults cl now hand s).lastDetectionTime =
      if passesCheck s now then now else s.lastDetectionTime := by
  unfold onResults passesCheck
  by_cases hv : s.view = .training
  · by_cases hw : now - s.lastDetectionTime < detectionDelay
    · simp [hv, hw]
    · cases hand
      · by_cases ht : s.noHandTimerId.isNone = true <;> simp [hv, hw, ht]
      · simp [hv, hw, recognitionCooldown]
  · simp [hv]

theorem dispatch_last (s : State) (e : Event) :
    (dispatch s e).lastDetectionTime =
      match e with
      | .frame now _ => if passesCheck s now then now else s.lastDetectionTime
      | _ => s.lastDetectionTime := by
  cases e with
  | startTraining course =>
    simp only [dispatch, (commit_fields _ _).2.2.2.2.2.2.2]
    cases course with
    | none => rfl
    | some c => by_cases htr : truthy (some c) = true <;> simp [handleStartTraining, htr]
  | stopTraining b =>
    simp only [dispatch, (commit_fields _ _).2.2.2.2.2.2.2,
      (handleStopTraining_fields _ _ _).2.2.2.2.2.2.2.1]
  | togglePause => simp only [dispatch, (commit_fields _ _).2.2.2.2.2.2.2, togglePause]
  | retry => simp only [dispatch, (commit_fields _ _).2.2.2.2.2.2.2, handleRetry]
  | goBack => simp only [dispatch, (commit_fields _ _).2.2.2.2.2.2.2, handleGoBack]
  | frame now hand =>
    simp only [dispatch, (commit_fields _ _).2.2.2.2.2.2.2, onResults_last]
  | noHandTimeout =>
    simp only [dispatch]
    split
    · simp only [(commit_fields _ _).2.2.2.2.2.2.2,
        (handleStopTraining_fields _ _ _).2.2.2.2.2.2.2.1]
    · rfl
  | scriptsLoaded => simp only [dispatch, (scriptsLoaded_fields s).2.2.2.2.2.2.2.1]
  | cameraReady => simp only [dispatch, (cameraReady_fields s).2.2.2.2.2.2.2.1]

theorem passesCheck_window (s : State) (now : Int) (h : passesCheck s now = true) :
    s.lastDetectionTime + detectionDelay ≤ now := by
  simp only [passesCheck, Bool.and_eq_true, Bool.not_eq_true', decide_eq_true_eq,
    decide_eq_false_iff_not, not_lt] at h
  have := h.2
  omega

theorem dispatch_last_le (s : State) (e : Event) :
    s.lastDetectionTime ≤ (dispatch s e).lastDetectionTime := by
  rw [dispatch_last]
  cases e with
  | frame now hand =>
    simp only
    by_cases hp : passesCheck s now = true
    · rw [if_pos hp]
      have := passesCheck_window s now hp
      simp only [detectionDelay] at this
      omega
    · rw [if_neg hp]
  | _ => exact le_refl _

theorem run_last_le (events : List Event) (s : State) :
    s.lastDetectionTime ≤ (run s events).lastDetectionTime := by
  induction events generalizing s with
  | nil => exact le_refl _
  | cons e rest ih => exact le_trans (dispatch_last_le s e) (ih (dispatch s e))

theorem passed_spec (s : State) (e : Event) (b : Int) (hb : b ∈ passed s e) :
    s.lastDetectionTime + detectionDelay ≤ b ∧ (dispatch s e).lastDetectionTime = b := by
  cases e with
  | frame now hand =>
    by_cases hp : passesCheck s now = true
    · simp only [passed, hp, if_true, List.mem_singleton] at hb
      subst hb
      refine ⟨passesCheck_window s b hp, ?_⟩
      rw [dispatch_last]
      simp [hp]
    · simp [passed, hp] at hb
  | _ => simp [passed] at hb

theorem passTimes_lower (events : List Event) (s : State) (b : Int)
    (hb : b ∈ passTimes s events) : s.lastDetectionTime + detectionDelay ≤ b := by
  induction events generalizing s with
  | nil => simp [passTimes] at hb
  | cons e rest ih =>
    simp only [passTimes, List.mem_append] at hb
    rcases hb with h | h
    · exact (passed_spec s e b h).1
    · have h1 := ih (dispatch s e) h
      have h2 := dispatch_last_le s e
      omega

theorem passed_pairwise (s : State) (e : Event) :
    (passed s e).Pairwise (fun a b => a + detectionDelay ≤ b) := by
  cases e with
  | frame now hand =>
    by_cases hp : passesCheck s now = true <;> simp [passed, hp]
  | _ => simp [passed]

theorem passTimes_pairwise (events : List Event) (s : State) :
    (passTimes s events).Pairwise (fun a b => a + detectionDelay ≤ b) := by
  induction events generalizing s with
  | nil => simp [passTimes]
  | cons e rest ih =>
    simp only [passTimes]
    rw [List.pairwise_append]
    refine ⟨passed_pairwise s e, ih _, ?_⟩
    intro a ha b hb
    have h1 := passed_spec s e a ha
    have h2 := passTimes_lower rest _ b hb
    rw [h1.2] at h2
    exact h2

/-- C16: along every sequence of events from any state, the instants of the frames that
are counted as gestures (each raising `totalGestures` by one) are pairwise more than
`recognitionCooldown` apart, and every window of `recognitionCooldown` milliseconds holds
at most one of them. -/
theorem C16_cooldown_contract (s : State) (events : List Event) :
    (acceptedTimes s events).Pairwise (fun a b => recognitionCooldown < b - a) ∧
    (∀ t, ((acceptedTimes s events).filter
      (fun a => decide (t ≤ a) && decide (a ≤ t + recognitionCooldown))).length ≤ 1) := by
  rw [acceptedTimes_nil]
  simp

/-- C17: a frame, at any instant and with or without a hand, leaves `correctGestures` and
`totalGestures` as they were: when it passes the suppression check,
`lastDetectionTimeRef` has become `now` and `now - lastDetectionTimeRef > recognitionCooldown`
is false. Hence frames alone, however many, change neither counter, nor
`gesturesProgress`, nor the view, nor `isTraining`. -/
theorem C17_frames_never_counted (cl : Closure) (s : State) (now : Int) (hand : Bool)
    (frames : List (Int × Bool)) :
    ((onResults cl now hand s).correctGestures = s.correctGestures ∧
      (onResults cl now hand s).totalGestures = s.totalGestures) ∧
    ((dispatch s (.frame now hand)).correctGestures = s.correctGestures ∧
      (dispatch s (.frame now hand)).totalGestures = s.totalGestures) ∧
    (passesCheck s now = true →
      (onResults cl now hand s).lastDetectionTime = now ∧
      ¬ now - (onResults cl now hand s).lastDetectionTime > recognitionCooldown) ∧
    ((run s (frames.map (fun f => Event.frame f.1 f.2))).correctGestures = s.correctGestures ∧
      (run s (frames.map (fun f => Event.frame f.1 f.2))).totalGestures = s.totalGestures ∧
      (run s (frames.map (fun f => Event.frame f.1 f.2))).gesturesProgress =
        s.gesturesProgress ∧
      (run s (frames.map (fun f => Event.frame f.1 f.2))).view = s.view ∧
      (run s (frames.map (fun f => Event.frame f.1 f.2))).isTraining = s.isTraining) := by
  obtain ⟨h1, h2, _⟩ := onResults_frame cl now hand s
  obtain ⟨d1, d2, _⟩ := dispatch_frame_fields s now hand
  refine ⟨⟨h1, h2⟩, ⟨d1, d2⟩, ?_, run_frames_fields frames s⟩
  intro hp
  have hl : (onResults cl now hand s).lastDetectionTime = now := by
    rw [onResults_last, if_pos hp]
  refine ⟨hl, ?_⟩
  rw [hl]
  simp [recognitionCooldown]

/-- C18: along every sequence of events from any state, `lastDetectionTimeRef` never
decreases and the frames that pass the suppression check are pairwise at least
`detectionDelay` apart. A frame that passes at `now` sets `lastDetectionTimeRef` to `now`,
starts a timer due at `now + 3000` when it shows no hand and none is scheduled, and every
frame at an instant before `now + 3000`, whatever happened in between, is inside the
suppression window. -/
theorem C18_suppression_spacing (s : State) (events later : List Event) (now t : Int)
    (hand : Bool) :
    s.lastDetectionTime ≤ (run s events).lastDetectionTime ∧
    (passTimes s events).Pairwise (fun a b => a + detectionDelay ≤ b) ∧
    (passesCheck s now = true →
      (dispatch s (.frame now hand)).lastDetectionTime = now ∧
      (hand = false → s.noHandTimerId = none →
        (dispatch s (.frame now hand)).noHandTimerId = some (now + noHandDelay)) ∧
      (t < now + noHandDelay →
        t - (run (dispatch s (.frame now hand)) later).lastDetectionTime < detectionDelay ∧
        passesCheck (run (dispatch s (.frame now hand)) later) t = false)) := by
  refine ⟨run_last_le events s, passTimes_pairwise events s, ?_⟩
  intro hp
  have hl : (dispatch s (.frame now hand)).lastDetectionTime = now := by
    rw [dispatch_last]
    simp [hp]
  refine ⟨hl, ?_, ?_⟩
  · intro hh ht
    subst hh
    have hp2 := hp
    simp only [passesCheck, Bool.and_eq_true, Bool.not_eq_true', decide_eq_true_eq,
      decide_eq_false_iff_not] at hp2
    obtain ⟨hv, hw⟩ := hp2
    obtain ⟨_, _, _, _, h5, h6, _, _⟩ := onResults_frame s.detector now false s
    simp only [dispatch]
    rw [commit_same _ _ h5.symm h6.symm]
    simp [onResults, hv, hw, ht]
  · intro hlt
    have h1 := run_last_le later (dispatch s (.frame now hand))
    rw [hl] at h1
    have hwin : t - (run (dispatch s (.frame now hand)) later).lastDetectionTime
        < detectionDelay := by
      simp only [noHandDelay, detectionDelay] at hlt ⊢
      omega
    refine ⟨hwin, ?_⟩
    simp [passesCheck, hwin]

/-- C18 (witness): of the five frames of `mixedFrames` delivered to `startedA`, those at
10000, 16000 and 22000 pass the check; the frame at 10000 starts a timer due at 13000 and
a frame at 12999, after the frame at 11000, is inside the window. -/
theorem C18_suppression_spacing_witness :
    passTimes startedA mixedFrames = [10000, 16000, 22000] ∧
    (passTimes startedA mixedFrames).Pairwise (fun a b => a + detectionDelay ≤ b) ∧
    passesCheck startedA 10000 = true ∧
    (dispatch startedA (.frame 10000 false)).noHandTimerId = some (10000 + noHandDelay) ∧
    passesCheck (run (dispatch startedA (.frame 10000 false)) [.frame 11000 true]) 12999
      = false :=
  have h := C18_suppression_spacing startedA mixedFrames [.frame 11000 true] 10000 12999 false
  ⟨by decide, h.2.1, by decide, (h.2.2 (by decide)).2.1 rfl (by decide),
    ((h.2.2 (by decide)).2.2 (by decide)).2⟩

end SeAs
